import Mathlib

/-!
Verification of the authentication core of `fastapi-users`
(`src/fastapi_users/authentication/__init__.py` and
`src/fastapi_users/authentication/cookie.py`), shallowly embedded in Lean 4.

External collaborators (the JWT codec `generate_jwt`/`decode_jwt`, the user
directory `BaseUserDatabase.get`, the response object) are abstracted as
function parameters, exactly at the boundary the source calls them.
Python exceptions are modelled with `Except`.
-/

namespace FastapiUsers

/-- A Python exception value, as far as the authentication code inspects it:
the `except` clauses in the source distinguish `jwt.PyJWTError` and
`ValueError` from everything else. -/
inductive PyError where
  | pyJWTError
  | valueError
  | otherError (msg : String)
deriving DecidableEq, Repr

/-- `fastapi_users.models.BaseUserDB`, restricted to the fields the
authentication core reads: the identifier and the three boolean flags. -/
structure BaseUserDB where
  id : Nat
  is_active : Bool
  is_verified : Bool
  is_superuser : Bool
deriving DecidableEq, Repr

/-- The truthiness Python applies to `token` in `if token:` inside
`Authenticator._authenticate`: the value (of type `Optional[str]`)
is truthy iff it is a non-empty string. -/
def strTruthy : Option String → Bool
  | none => false
  | some s => s ≠ ""

/-- `INVALID_CHARS_PATTERN = re.compile(r"[^0-9a-zA-Z_]")`: a character
survives the first substitution iff it is in `[0-9a-zA-Z_]`. -/
def validChar (c : Char) : Bool := c.isAlphanum || c = '_'

/-- `INVALID_LEADING_CHARS_PATTERN = re.compile(r"^[^a-zA-Z_]+")`: a leading
character is stripped by the second substitution iff it is outside
`[a-zA-Z_]`. -/
def invalidLeadingChar (c : Char) : Bool := !(c.isAlpha || c = '_')

/-- `name_to_variable_name`: delete every character outside `[0-9a-zA-Z_]`,
then delete the leading run of characters outside `[a-zA-Z_]`. -/
def name_to_variable_name (name : String) : String :=
  String.mk ((name.toList.filter validChar).dropWhile invalidLeadingChar)

/-- An authentication backend, as `Authenticator` uses it per request: its
configured `name` and its `__call__(credentials, user_db)` coroutine.
The user directory is already bound into `resolve`, mirroring
`backend(token, self.user_db)`; a raised exception is an `Except.error`. -/
structure Backend where
  name : String
  resolve : Option String → Except PyError (Option BaseUserDB)

/-- The backend-trial loop of `Authenticator._authenticate` (source lines
110–116), instrumented with the list of indices of the backends whose
`__call__` was actually invoked.  `kwargs` maps a parameter (variable)
name to the credential the host extracted for it; the loop reads
`kwargs[name_to_variable_name(backend.name)]`, skips falsy tokens, calls
the backend on truthy ones, and stops at the first backend that yields a
user. -/
def runBackendsFrom (kwargs : String → Option String) :
    Nat → List Backend → Except PyError (Option BaseUserDB × List Nat)
  | _, [] => .ok (none, [])
  | i, b :: rest =>
    let token := kwargs (name_to_variable_name b.name)
    if strTruthy token then
      match b.resolve token with
      | .error e => .error e
      | .ok (some u) => .ok (some u, [i])
      | .ok none =>
        match runBackendsFrom kwargs (i + 1) rest with
        | .error e => .error e
        | .ok (u, l) => .ok (u, i :: l)
    else
      runBackendsFrom kwargs (i + 1) rest

/-- The backend-trial loop starting at index 0. -/
def runBackends (kwargs : String → Option String) (backends : List Backend) :
    Except PyError (Option BaseUserDB × List Nat) :=
  runBackendsFrom kwargs 0 backends

/-- What `Authenticator._authenticate` does with control: return the user,
return `None` (the `optional` path), or raise `HTTPException(status_code)`. -/
inductive AuthOutcome where
  | user (u : BaseUserDB)
  | noUser
  | httpException (status_code : Nat)
deriving DecidableEq, Repr

/-- `status.HTTP_401_UNAUTHORIZED` -/
def HTTP_401_UNAUTHORIZED : Nat := 401

/-- `status.HTTP_403_FORBIDDEN` -/
def HTTP_403_FORBIDDEN : Nat := 403

/-- `Authenticator._authenticate` (source lines 101–131): run the backend
loop, then apply the predicate phase exactly as written — `status_code`
starts at 401; once a user is resolved it becomes 403; the `active` check
resets it to 401 and nulls the user; the `verified` and `superuser` checks
null the user keeping 403; finally raise iff no user remains and not
`optional`.  A backend exception propagates out untouched. -/
def _authenticate (kwargs : String → Option String) (backends : List Backend)
    (optional active verified superuser : Bool) : Except PyError AuthOutcome :=
  match runBackends kwargs backends with
  | .error e => .error e
  | .ok (user0, _) =>
    let statusAndUser : Nat × Option BaseUserDB :=
      match user0 with
      | none => (HTTP_401_UNAUTHORIZED, none)
      | some u =>
        if active && !u.is_active then (HTTP_401_UNAUTHORIZED, none)
        else if verified && !u.is_verified then (HTTP_403_FORBIDDEN, none)
        else if superuser && !u.is_superuser then (HTTP_403_FORBIDDEN, none)
        else (HTTP_403_FORBIDDEN, some u)
    match statusAndUser with
    | (status_code, none) =>
      if optional then .ok .noUser else .ok (.httpException status_code)
    | (_, some u) => .ok (.user u)

/-- The Python keywords (`keyword.kwlist`): `inspect.Parameter` refuses a
name that is a keyword, in addition to refusing non-identifiers. -/
def pythonKeywords : List String :=
  ["False", "None", "True", "and", "as", "assert", "async", "await",
   "break", "class", "continue", "def", "del", "elif", "else", "except",
   "finally", "for", "from", "global", "if",
   "import", "in", "is", "lambda", "nonlocal", "not", "or", "pass",
   "raise", "return", "try", "while", "with", "yield"]

/-- `str.isidentifier` restricted to the ASCII alphabet that
`name_to_variable_name` can produce: non-empty, first character in
`[a-zA-Z_]`, the rest in `[0-9a-zA-Z_]`. -/
def isIdentifier (s : String) : Bool :=
  match s.toList with
  | [] => false
  | c :: cs => (c.isAlpha || c = '_') && cs.all (fun d => d.isAlphanum || d = '_')

/-- The exception `inspect.Parameter.__init__` raises for a bad name:
`name[0]` is evaluated first, so the empty name raises `IndexError`
before the keyword/identifier check can raise `ValueError`. -/
inductive ParamExc where
  | indexError
  | valueError
deriving DecidableEq, Repr

/-- The name validation of `inspect.Parameter.__init__` for a
`POSITIONAL_OR_KEYWORD` parameter, in CPython's evaluation order:
`name[0]` (→ `IndexError` on the empty string); the implicit-argument
rewrite for names of the form `.digits` (accepted after renaming, and
unreachable for normalized backend names, which never contain a dot);
then `ValueError` when the name is a keyword or not an identifier. -/
def paramError (s : String) : Option ParamExc :=
  match s.toList with
  | [] => some .indexError
  | c :: rest =>
    if c == '.' && !rest.isEmpty && rest.all Char.isDigit then none
    else if pythonKeywords.contains s || !(isIdentifier s) then some .valueError
    else none

/-- `inspect.Signature(parameters)` raises `ValueError` when two parameters
share a name. -/
def hasDuplicate : List String → Bool
  | [] => false
  | x :: xs => xs.contains x || hasDuplicate xs

/-- What `Authenticator.current_user` can raise at configuration time: the
`DuplicateBackendNamesError` it raises itself from its `except ValueError`
handler, or an `IndexError` escaping from `inspect.Parameter("")`, which
that handler does not catch. -/
inductive ConfigError where
  | duplicateBackendNamesError
  | indexError
deriving DecidableEq, Repr

/-- `Authenticator.current_user` (source lines 50–99): build one parameter
per backend named `name_to_variable_name(backend.name)`, in list order;
the first failing `Parameter` determines the exception.  A `ValueError`
from `Parameter` (keyword or non-identifier name) or from `Signature`
(duplicate names) is re-raised as `DuplicateBackendNamesError`; an
`IndexError` from `Parameter("")` is not caught by `except ValueError`
and propagates.  Otherwise return the dependency callable that runs
`_authenticate` with the captured options. -/
def current_user (backends : List Backend)
    (optional active verified superuser : Bool) :
    Except ConfigError ((String → Option String) → Except PyError AuthOutcome) :=
  let names := backends.map (fun b => name_to_variable_name b.name)
  match names.findSome? paramError with
  | some .indexError => .error .indexError
  | some .valueError => .error .duplicateBackendNamesError
  | none =>
    if hasDuplicate names then .error .duplicateBackendNamesError
    else .ok
      (fun kwargs => _authenticate kwargs backends optional active verified superuser)

/-!  The cookie backend (`src/fastapi_users/authentication/cookie.py`). -/

/-- The claim set of a decoded JWT, as far as `CookieAuthentication.__call__`
reads it: `data.get("user_id")`, absent when the claim is missing. -/
structure JWTData where
  user_id : Option String
deriving DecidableEq, Repr

/-- The claim dict `CookieAuthentication._generate_token` builds:
`str(user.id)` under the identifier key, plus the audience list. -/
structure TokenClaims where
  user_id : String
  aud : List String
deriving DecidableEq, Repr

/-- `CookieAuthentication` configuration, with the constructor defaults of
the source; `logout := true` records `super().__init__(name, logout=True)`. -/
structure CookieAuthentication where
  secret : String
  lifetime_seconds : Option Nat := none
  cookie_name : String := "fastapiusersauth"
  cookie_path : String := "/"
  cookie_domain : Option String := none
  cookie_secure : Bool := true
  cookie_httponly : Bool := true
  cookie_samesite : String := "lax"
  name : String := "cookie"
  token_audience : List String := ["fastapi-users:auth"]
  logout : Bool := true
deriving DecidableEq, Repr

/-- `CookieAuthentication.__call__` (source lines 67–87).  `decode_jwt` is
the external codec: it either returns the claims or raises
`jwt.PyJWTError` (modelled as the `Except.error` case); `uuid4Parse` is
`pydantic.UUID4` applied to the identifier string, `none` when it raises
`ValueError`; `get` is `user_db.get`, which may raise.  Both the `UUID4`
call and the awaited `user_db.get` sit inside the same
`try: ... except ValueError: return None` block in the source, so a
`ValueError` from either is swallowed; any other exception from `get`
propagates. -/
def CookieAuthentication.call (cfg : CookieAuthentication)
    (decode_jwt : String → String → List String → Except Unit JWTData)
    (uuid4Parse : String → Option Nat)
    (get : Nat → Except PyError (Option BaseUserDB))
    (credentials : Option String) : Except PyError (Option BaseUserDB) :=
  match credentials with
  | none => .ok none
  | some cred =>
    match decode_jwt cred cfg.secret cfg.token_audience with
    | .error _ => .ok none
    | .ok data =>
      match data.user_id with
      | none => .ok none
      | some user_id =>
        match uuid4Parse user_id with
        | none => .ok none
        | some user_uiid =>
          match get user_uiid with
          | .ok r => .ok r
          | .error .valueError => .ok none
          | .error e => .error e

/-- One `response.set_cookie(...)` call recorded on the response object,
with the keyword arguments the source passes. -/
structure SetCookieCall where
  name : String
  value : String
  max_age : Option Nat
  path : String
  domain : Option String
  secure : Bool
  httponly : Bool
  samesite : String
deriving DecidableEq, Repr

/-- The response sink: the list of cookies set on it, in call order. -/
structure Response where
  set_cookie_calls : List SetCookieCall := []
deriving DecidableEq, Repr

/-- `CookieAuthentication._generate_token` (source lines 111–113): build
the claim dict and hand it to the external `generate_jwt` with the
configured secret and lifetime. -/
def CookieAuthentication.generate_token (cfg : CookieAuthentication)
    (generate_jwt : TokenClaims → String → Option Nat → String)
    (user : BaseUserDB) : String :=
  generate_jwt { user_id := toString user.id, aud := cfg.token_audience }
    cfg.secret cfg.lifetime_seconds

/-- `CookieAuthentication.get_login_response` (source lines 89–104):
generate the token, `response.set_cookie` it with the configured
attributes and `max_age=self.lifetime_seconds`, and return `None`
(no response body). -/
def CookieAuthentication.get_login_response (cfg : CookieAuthentication)
    (generate_jwt : TokenClaims → String → Option Nat → String)
    (user : BaseUserDB) (response : Response) : Option Unit × Response :=
  let token := cfg.generate_token generate_jwt user
  (none,
   { response with
     set_cookie_calls := response.set_cookie_calls ++
       [{ name := cfg.cookie_name
          value := token
          max_age := cfg.lifetime_seconds
          path := cfg.cookie_path
          domain := cfg.cookie_domain
          secure := cfg.cookie_secure
          httponly := cfg.cookie_httponly
          samesite := cfg.cookie_samesite }] })

/-!  Helper lemmas about the backend-trial loop. -/

/-- If every backend in the list either has a falsy token or resolves to
`none`, the loop yields no user (and no exception). -/
lemma runBackendsFrom_all_none (kwargs : String → Option String)
    (backends : List Backend)
    (h : ∀ b ∈ backends,
      strTruthy (kwargs (name_to_variable_name b.name)) = false ∨
      b.resolve (kwargs (name_to_variable_name b.name)) = .ok none) :
    ∀ i, ∃ l, runBackendsFrom kwargs i backends = .ok (none, l) := by
  induction backends with
  | nil => intro i; exact ⟨[], rfl⟩
  | cons b rest ih =>
    intro i
    have hb := h b (List.mem_cons_self b rest)
    have hrest := fun b' hb' => h b' (List.mem_cons_of_mem b hb')
    obtain ⟨l, hl⟩ := ih hrest (i + 1)
    by_cases htok : strTruthy (kwargs (name_to_variable_name b.name)) = true
    · rcases hb with hfall | hnone
      · rw [htok] at hfall; cases hfall
      · exact ⟨i :: l, by simp [runBackendsFrom, htok, hnone, hl]⟩
    · simp only [Bool.not_eq_true] at htok
      exact ⟨l, by simp [runBackendsFrom, htok, hl]⟩

/-- If every backend before position `i` has a falsy token or resolves to
`none`, and backend `i` has a truthy token and resolves a user, the loop
yields that user and invokes no later backend. -/
lemma runBackendsFrom_first_match (kwargs : String → Option String)
    (pre post : List Backend) (b : Backend) (u : BaseUserDB)
    (hpre : ∀ b' ∈ pre,
      strTruthy (kwargs (name_to_variable_name b'.name)) = false ∨
      b'.resolve (kwargs (name_to_variable_name b'.name)) = .ok none)
    (htok : strTruthy (kwargs (name_to_variable_name b.name)) = true)
    (hres : b.resolve (kwargs (name_to_variable_name b.name)) = .ok (some u)) :
    ∀ i, ∃ l, runBackendsFrom kwargs i (pre ++ b :: post) = .ok (some u, l) ∧
      ∀ j ∈ l, j ≤ i + pre.length := by
  induction pre with
  | nil =>
    intro i
    refine ⟨[i], ?_, ?_⟩
    · simp [runBackendsFrom, htok, hres]
    · intro j hj; simp at hj; omega
  | cons b' pre' ih =>
    intro i
    have hb' := hpre b' (List.mem_cons_self b' pre')
    have hpre' := fun x hx => hpre x (List.mem_cons_of_mem b' hx)
    obtain ⟨l, hl, hbound⟩ := ih hpre' (i + 1)
    by_cases htok' : strTruthy (kwargs (name_to_variable_name b'.name)) = true
    · rcases hb' with hfall | hnone
      · rw [htok'] at hfall; cases hfall
      · refine ⟨i :: l, ?_, ?_⟩
        · simp [runBackendsFrom, htok', hnone, hl]
        · intro j hj
          rcases List.mem_cons.mp hj with rfl | hj'
          · simp
          · have := hbound j hj'; simp at this ⊢; omega
    · simp only [Bool.not_eq_true] at htok'
      refine ⟨l, ?_, ?_⟩
      · simp [runBackendsFrom, htok', hl]
      · intro j hj; have := hbound j hj; simp at this ⊢; omega

/-- C2 — With `active=true` and `optional=false`, a resolved user whose
`is_active` is `false` makes `_authenticate` raise
`HTTPException(401)` — never 403 — and return no user. -/
theorem C2_inactive_user_unauthorized (kwargs : String → Option String)
    (backends : List Backend) (u : BaseUserDB) (l : List Nat)
    (verified superuser : Bool)
    (hrun : runBackends kwargs backends = .ok (some u, l))
    (hinactive : u.is_active = false) :
    _authenticate kwargs backends false true verified superuser =
      .ok (.httpException HTTP_401_UNAUTHORIZED) := by
  simp [_authenticate, hrun, hinactive]

/-- C2 witness: a single backend resolving an inactive user. -/
theorem C2_witness :
    _authenticate (fun _ => some "tok")
      [{ name := "cookie",
         resolve := fun _ => .ok (some ⟨1, false, true, true⟩) }]
      false true false false = .ok (.httpException HTTP_401_UNAUTHORIZED) :=
  C2_inactive_user_unauthorized (fun _ => some "tok") _ ⟨1, false, true, true⟩
    [0] false false rfl rfl

/-- C3 — With `verified=true` and `optional=false`, a resolved user that is
active but not verified makes `_authenticate` raise `HTTPException(403)`,
not 401, whatever the `active` option is. -/
theorem C3_unverified_user_forbidden (kwargs : String → Option String)
    (backends : List Backend) (u : BaseUserDB) (l : List Nat)
    (active superuser : Bool)
    (hrun : runBackends kwargs backends = .ok (some u, l))
    (hactive : u.is_active = true) (hunverified : u.is_verified = false) :
    _authenticate kwargs backends false active true superuser =
      .ok (.httpException HTTP_403_FORBIDDEN) := by
  simp [_authenticate, hrun, hactive, hunverified]

/-- C3 witness: a single backend resolving an active, unverified user,
with `active=true` as well. -/
theorem C3_witness :
    _authenticate (fun _ => some "tok")
      [{ name := "cookie",
         resolve := fun _ => .ok (some ⟨1, true, false, true⟩) }]
      false true true false = .ok (.httpException HTTP_403_FORBIDDEN) :=
  C3_unverified_user_forbidden (fun _ => some "tok") _ ⟨1, true, false, true⟩
    [0] true false rfl rfl rfl

/-- C4 — With `optional=true`, `_authenticate` never raises
`HTTPException`: its outcome is a propagated backend exception, `None`,
or a user — for every combination of the predicate options. -/
theorem C4_optional_never_http_error (kwargs : String → Option String)
    (backends : List Backend) (active verified superuser : Bool) :
    (∃ e, _authenticate kwargs backends true active verified superuser =
      .error e) ∨
    _authenticate kwargs backends true active verified superuser =
      .ok .noUser ∨
    (∃ u, _authenticate kwargs backends true active verified superuser =
      .ok (.user u)) := by
  cases hrun : runBackends kwargs backends with
  | error e => exact .inl ⟨e, by simp [_authenticate, hrun]⟩
  | ok p =>
    obtain ⟨u0, l⟩ := p
    cases u0 with
    | none => exact .inr (.inl (by simp [_authenticate, hrun]))
    | some u =>
      by_cases h1 : active && !u.is_active
      · exact .inr (.inl (by simp [_authenticate, hrun, h1]))
      · by_cases h2 : verified && !u.is_verified
        · exact .inr (.inl (by simp [_authenticate, hrun, h1, h2]))
        · by_cases h3 : superuser && !u.is_superuser
          · exact .inr (.inl (by simp [_authenticate, hrun, h1, h2, h3]))
          · exact .inr (.inr ⟨u, by simp [_authenticate, hrun, h1, h2, h3]⟩)

/-- C5 — If every backend's credential is absent or empty, or every invoked
backend resolves to `none`, `_authenticate` with `optional=false` raises
`HTTPException(401)`, for every combination of the predicate options. -/
theorem C5_no_user_unauthorized (kwargs : String → Option String)
    (backends : List Backend) (active verified superuser : Bool)
    (h : ∀ b ∈ backends,
      strTruthy (kwargs (name_to_variable_name b.name)) = false ∨
      b.resolve (kwargs (name_to_variable_name b.name)) = .ok none) :
    _authenticate kwargs backends false active verified superuser =
      .ok (.httpException HTTP_401_UNAUTHORIZED) := by
  obtain ⟨l, hl⟩ := runBackendsFrom_all_none kwargs backends h 0
  simp [_authenticate, runBackends, hl]

/-- C5 witness: one backend with an empty credential and one whose
resolution finds no user. -/
theorem C5_witness :
    _authenticate (fun s => if s = "a" then some "" else some "tok")
      [{ name := "a", resolve := fun _ => .ok (some ⟨1, true, true, true⟩) },
       { name := "b", resolve := fun _ => .ok none }]
      false true true true = .ok (.httpException HTTP_401_UNAUTHORIZED) := by
  apply C5_no_user_unauthorized
  intro b hb
  rcases List.mem_cons.mp hb with rfl | hb'
  · exact .inl (by simp [strTruthy, name_to_variable_name, validChar,
      invalidLeadingChar])
  · rcases List.mem_cons.mp hb' with rfl | h
    · exact .inr rfl
    · cases h

/-- C1 — First-match-wins: if the backends before `b` each present no (or
an empty) credential or resolve to `none`, and `b`'s credential is present
and resolves user `u`, then the trial loop inside `_authenticate` yields
`u` with every invoked backend at an index ≤ `b`'s own, so no backend
after `b` is invoked; with all predicate options off, `_authenticate`
returns exactly `u`. -/
theorem C1_first_match_wins (kwargs : String → Option String)
    (pre post : List Backend) (b : Backend) (u : BaseUserDB) (optional : Bool)
    (hpre : ∀ b' ∈ pre,
      strTruthy (kwargs (name_to_variable_name b'.name)) = false ∨
      b'.resolve (kwargs (name_to_variable_name b'.name)) = .ok none)
    (htok : strTruthy (kwargs (name_to_variable_name b.name)) = true)
    (hres : b.resolve (kwargs (name_to_variable_name b.name)) = .ok (some u)) :
    ∃ l, runBackends kwargs (pre ++ b :: post) = .ok (some u, l) ∧
      (∀ j ∈ l, j ≤ pre.length) ∧
      _authenticate kwargs (pre ++ b :: post) optional false false false =
        .ok (.user u) := by
  obtain ⟨l, hl, hbound⟩ :=
    runBackendsFrom_first_match kwargs pre post b u hpre htok hres 0
  refine ⟨l, hl, fun j hj => by simpa using hbound j hj, ?_⟩
  simp [_authenticate, runBackends, hl]

/-- C1 witness: three backends; the first fails, the second wins, the third
(at index 2) is never invoked. -/
theorem C1_witness :
    ∃ l, runBackends (fun _ => some "tok")
        [{ name := "a", resolve := fun _ => .ok none },
         { name := "b", resolve := fun _ => .ok (some ⟨7, true, true, true⟩) },
         { name := "c", resolve := fun _ => .ok (some ⟨9, true, true, true⟩) }] =
      .ok (some ⟨7, true, true, true⟩, l) ∧
      (∀ j ∈ l, j ≤ 1) ∧
      _authenticate (fun _ => some "tok")
        [{ name := "a", resolve := fun _ => .ok none },
         { name := "b", resolve := fun _ => .ok (some ⟨7, true, true, true⟩) },
         { name := "c", resolve := fun _ => .ok (some ⟨9, true, true, true⟩) }]
        false false false false = .ok (.user ⟨7, true, true, true⟩) := by
  have h := C1_first_match_wins (fun _ => some "tok")
    [{ name := "a", resolve := fun _ => .ok none }]
    [{ name := "c", resolve := fun _ => .ok (some ⟨9, true, true, true⟩) }]
    { name := "b", resolve := fun _ => .ok (some ⟨7, true, true, true⟩) }
    ⟨7, true, true, true⟩ false
    (by intro b' hb'
        rcases List.mem_cons.mp hb' with rfl | h'
        · exact .inr rfl
        · cases h')
    rfl rfl
  simpa using h

/-!  Helper lemmas for the configuration-time name checks. -/

/-- A list on which `hasDuplicate` is `false` has pairwise-distinct
elements. -/
lemma nodup_of_hasDuplicate_eq_false :
    ∀ l : List String, hasDuplicate l = false → l.Nodup := by
  intro l
  induction l with
  | nil => intro _; exact List.nodup_nil
  | cons x xs ih =>
    intro h
    simp only [hasDuplicate, Bool.or_eq_false_iff] at h
    refine List.nodup_cons.mpr ⟨?_, ih h.2⟩
    intro hmem
    have hcontains : xs.contains x = true := by simpa using hmem
    rw [h.1] at hcontains
    cases hcontains

/-- The head of `dropWhile p l`, when it exists, does not satisfy `p`. -/
lemma head_dropWhile_false {α : Type} (p : α → Bool) :
    ∀ (l : List α) (c : α), (l.dropWhile p).head? = some c → p c = false := by
  intro l
  induction l with
  | nil => intro c h; cases h
  | cons x xs ih =>
    intro c h
    by_cases hx : p x
    · rw [List.dropWhile_cons_of_pos hx] at h
      exact ih c h
    · rw [List.dropWhile_cons_of_neg hx] at h
      cases h
      simpa using hx

/-- A non-empty normalized name is a valid identifier: its first character
survived the leading strip (so lies in `[a-zA-Z_]`) and every character
survived the filter (so lies in `[0-9a-zA-Z_]`). -/
lemma isIdentifier_nvn (s : String) (h : name_to_variable_name s ≠ "") :
    isIdentifier (name_to_variable_name s) = true := by
  have htl : (name_to_variable_name s).toList =
      (s.toList.filter validChar).dropWhile invalidLeadingChar := rfl
  cases hl : (s.toList.filter validChar).dropWhile invalidLeadingChar with
  | nil => exact absurd (String.ext (htl.trans hl)) h
  | cons c cs =>
    have hhead : invalidLeadingChar c = false :=
      head_dropWhile_false invalidLeadingChar (s.toList.filter validChar) c
        (by rw [hl]; rfl)
    have hc : (c.isAlpha || c = '_') = true := by
      cases hcb : (c.isAlpha || c = '_') with
      | true => rfl
      | false =>
        unfold invalidLeadingChar at hhead
        rw [hcb] at hhead
        cases hhead
    have hcs : ∀ d ∈ cs, validChar d = true := by
      intro d hd
      have hdl : d ∈ (s.toList.filter validChar).dropWhile invalidLeadingChar := by
        rw [hl]; exact List.mem_cons_of_mem c hd
      have hdf : d ∈ s.toList.filter validChar :=
        (List.dropWhile_sublist _).subset hdl
      exact (List.mem_filter.mp hdf).2
    simp only [isIdentifier, htl, hl]
    rw [hc]
    simp only [Bool.true_and, List.all_eq_true]
    intro d hd
    simpa [validChar] using hcs d hd

/-- On a normalized name, `Parameter`'s validation reduces to two cases:
the empty name raises `IndexError`, a keyword raises `ValueError`, and
everything else passes (a non-empty normalized name is an identifier and
never starts with a dot). -/
lemma paramError_nvn (s : String) :
    paramError (name_to_variable_name s) =
      if name_to_variable_name s = "" then some .indexError
      else if pythonKeywords.contains (name_to_variable_name s) then
        some .valueError
      else none := by
  by_cases h : name_to_variable_name s = ""
  · rw [h]; decide
  · rw [if_neg h]
    have hid := isIdentifier_nvn s h
    have htl : (name_to_variable_name s).toList =
        (s.toList.filter validChar).dropWhile invalidLeadingChar := rfl
    cases hl : (s.toList.filter validChar).dropWhile invalidLeadingChar with
    | nil => exact absurd (String.ext (htl.trans hl)) h
    | cons c cs =>
      have hhead : invalidLeadingChar c = false :=
        head_dropWhile_false invalidLeadingChar (s.toList.filter validChar) c
          (by rw [hl]; rfl)
      have hc : (c.isAlpha || c = '_') = true := by
        cases hcb : (c.isAlpha || c = '_') with
        | true => rfl
        | false =>
          unfold invalidLeadingChar at hhead
          rw [hcb] at hhead
          cases hhead
      have hdot : (c == '.') = false := by
        cases hcd : (c == '.')
        · rfl
        · have hceq : c = '.' := by simpa using hcd
          rw [hceq] at hc
          exact absurd hc (by decide)
      simp only [paramError, htl, hl, hdot, Bool.false_and, if_neg,
        Bool.false_eq_true, not_false_iff, hid, Bool.not_true, Bool.or_false]

/-- C6 — Normalization keeps only characters in `[0-9a-zA-Z_]` (the result
is a sub-sequence of the input all of whose characters lie in that class)
and strips leading characters outside `[a-zA-Z_]` (the first surviving
character, if any, is in that class); and whenever two backends at distinct
positions have equal normalized names and every backend's normalized name
is non-empty, `current_user` fails with `DuplicateBackendNamesError` at
construction time — no dependency callable is produced, so the collision
cannot surface as a request-time authentication failure.  (The non-empty
hypothesis is necessary: an empty normalized name makes
`inspect.Parameter` raise `IndexError` instead, see `C6_counterexample`.) -/
theorem C6_duplicate_names_config_error (backends : List Backend)
    (i j : Fin backends.length) (hij : i ≠ j)
    (optional active verified superuser : Bool)
    (hnonempty : ∀ b ∈ backends, name_to_variable_name b.name ≠ "")
    (hcol : name_to_variable_name (backends.get i).name =
            name_to_variable_name (backends.get j).name) :
    current_user backends optional active verified superuser =
      .error .duplicateBackendNamesError ∧
    ∀ s : String,
      (name_to_variable_name s).toList.Sublist s.toList ∧
      (∀ c ∈ (name_to_variable_name s).toList, validChar c = true) ∧
      (∀ c, (name_to_variable_name s).toList.head? = some c →
        invalidLeadingChar c = false) := by
  constructor
  · have hdup : hasDuplicate
        (backends.map fun b => name_to_variable_name b.name) = true := by
      by_cases hdup' : hasDuplicate
          (backends.map fun b => name_to_variable_name b.name) = true
      · exact hdup'
      · exfalso
        rw [Bool.not_eq_true] at hdup'
        have hnodup := nodup_of_hasDuplicate_eq_false _ hdup'
        have hlen : (backends.map fun b => name_to_variable_name b.name).length =
            backends.length := List.length_map _ _
        have hget : ∀ k : Fin backends.length,
            (backends.map fun b => name_to_variable_name b.name).get
              (Fin.cast hlen.symm k) =
              name_to_variable_name (backends.get k).name := by
          intro k
          simp [List.get_eq_getElem]
        have heq : (backends.map fun b => name_to_variable_name b.name).get
              (Fin.cast hlen.symm i) =
            (backends.map fun b => name_to_variable_name b.name).get
              (Fin.cast hlen.symm j) := by
          rw [hget i, hget j]; exact hcol
        have hcast := (List.Nodup.get_inj_iff hnodup).mp heq
        have hv : (Fin.cast hlen.symm i).val = (Fin.cast hlen.symm j).val :=
          congrArg Fin.val hcast
        exact hij (Fin.ext hv)
    cases hfind : (backends.map fun b => name_to_variable_name b.name).findSome?
        paramError with
    | none => simp [current_user, hfind, hdup]
    | some exc =>
      cases exc with
      | valueError => simp [current_user, hfind]
      | indexError =>
        exfalso
        obtain ⟨x, hx, hfx⟩ := List.exists_of_findSome?_eq_some hfind
        obtain ⟨b, hb, rfl⟩ := List.mem_map.mp hx
        have hne := hnonempty b hb
        rw [paramError_nvn, if_neg hne] at hfx
        split at hfx
        · cases hfx
        · cases hfx
  · intro s
    refine ⟨?_, ?_, ?_⟩
    · exact (List.dropWhile_sublist _).trans (List.filter_sublist _)
    · intro c hc
      have hc' : c ∈ s.toList.filter validChar :=
        (List.dropWhile_sublist _).subset hc
      exact (List.mem_filter.mp hc').2
    · intro c hc
      have := head_dropWhile_false invalidLeadingChar
        (s.toList.filter validChar) c hc
      simpa using this

/-- C6 counterexample against the unrestricted claim: `"!!"` and `"??"` at
distinct positions both normalize to `""` (equal normalized names), yet
`current_user` propagates `IndexError` from `inspect.Parameter("")` —
`except ValueError` does not catch it — and not
`DuplicateBackendNamesError`. -/
theorem C6_counterexample :
    name_to_variable_name "!!" = name_to_variable_name "??" ∧
    current_user
      [{ name := "!!", resolve := fun _ => .ok none },
       { name := "??", resolve := fun _ => .ok none }]
      false false false false = .error .indexError ∧
    ConfigError.indexError ≠ ConfigError.duplicateBackendNamesError := by
  exact ⟨by decide, rfl, by decide⟩

/-- C6 witness: the spec's example collision — `"My Backend!"` and
`"My-Backend "` both normalize to the non-empty `"MyBackend"`. -/
theorem C6_witness :
    name_to_variable_name "My Backend!" = "MyBackend" ∧
    name_to_variable_name "My-Backend " = "MyBackend" ∧
    current_user
      [{ name := "My Backend!", resolve := fun _ => .ok none },
       { name := "My-Backend ", resolve := fun _ => .ok none }]
      false false false false = .error .duplicateBackendNamesError := by
  refine ⟨by decide, by decide, ?_⟩
  have h := C6_duplicate_names_config_error
    [{ name := "My Backend!", resolve := fun _ => .ok none },
     { name := "My-Backend ", resolve := fun _ => .ok none }]
    ⟨0, by decide⟩ ⟨1, by decide⟩ (by decide)
    false false false false (by decide) (by decide)
  exact h.1

/-- When every normalized name avoids the Python keywords and some backend's
normalized name is empty, the first `Parameter` failure in list order is
the `IndexError` from the empty name. -/
lemma findSome?_paramError_empty (backends : List Backend)
    (hkw : ∀ x ∈ backends,
      pythonKeywords.contains (name_to_variable_name x.name) = false)
    (hex : ∃ b ∈ backends, name_to_variable_name b.name = "") :
    (backends.map fun b => name_to_variable_name b.name).findSome? paramError =
      some .indexError := by
  induction backends with
  | nil => obtain ⟨b, hb, _⟩ := hex; cases hb
  | cons b rest ih =>
    rw [List.map_cons]
    by_cases hb : name_to_variable_name b.name = ""
    · have hpb : paramError (name_to_variable_name b.name) =
          some .indexError := by
        rw [paramError_nvn, if_pos hb]
      simp [List.findSome?_cons, hpb]
    · have hkb := hkw b (List.mem_cons_self b rest)
      have hpb : paramError (name_to_variable_name b.name) = none := by
        have hnk : ¬ (pythonKeywords.contains (name_to_variable_name b.name)
            = true) := by
          rw [hkb]; exact Bool.false_ne_true
        rw [paramError_nvn, if_neg hb, if_neg hnk]
      rw [List.findSome?_cons, hpb]
      obtain ⟨w, hw, hwe⟩ := hex
      rcases List.mem_cons.mp hw with rfl | hw'
      · exact absurd hwe hb
      · exact ih (fun x hx => hkw x (List.mem_cons_of_mem b hx)) ⟨w, hw', hwe⟩

/-- C10 (amended) — A backend whose name normalizes to the empty string
(for instance, a name made only of digits or punctuation) makes
`current_user` propagate an uncaught `IndexError` from
`inspect.Parameter("")` — not `DuplicateBackendNamesError`, which the
`except ValueError` handler cannot produce here — provided no backend's
normalized name is a Python keyword (a keyword earlier in the list would
raise `ValueError` first).  Collisions are irrelevant: the conclusion
holds whether or not any names collide. -/
theorem C10_empty_name_index_error (backends : List Backend)
    (b : Backend) (hb : b ∈ backends)
    (hempty : name_to_variable_name b.name = "")
    (hkw : ∀ x ∈ backends,
      pythonKeywords.contains (name_to_variable_name x.name) = false)
    (optional active verified superuser : Bool) :
    current_user backends optional active verified superuser =
      .error .indexError := by
  have hfind := findSome?_paramError_empty backends hkw ⟨b, hb, hempty⟩
  simp [current_user, hfind]

/-- C10 counterexample against the original claim: a single backend named
`"1234"` normalizes to the empty string and `current_user` raises
`IndexError`, not `DuplicateBackendNamesError`. -/
theorem C10_counterexample :
    name_to_variable_name "1234" = "" ∧
    current_user [{ name := "1234", resolve := fun _ => .ok none }]
      false false false false = .error .indexError ∧
    ConfigError.indexError ≠ ConfigError.duplicateBackendNamesError := by
  exact ⟨by decide, rfl, by decide⟩

/-- C10 witness for the amended statement: the `"1234"` backend, with no
keyword names, yields the uncaught `IndexError`. -/
theorem C10_witness :
    current_user [{ name := "1234", resolve := fun _ => .ok none }]
      true false false false = .error .indexError :=
  C10_empty_name_index_error _ _ (List.mem_singleton.mpr rfl) (by decide)
    (by decide) true false false false

/-- C7 — `CookieAuthentication.__call__` returns `none` when the credential
is absent, when decoding raises, when the decoded claims lack `user_id`,
or when the identifier fails to parse as a UUID; otherwise it returns
exactly what `user_db.get` returns for the parsed identifier (so a missing
user, `get` returning `none`, is indistinguishable from a malformed
token). -/
theorem C7_cookie_resolve_cases (cfg : CookieAuthentication)
    (decode_jwt : String → String → List String → Except Unit JWTData)
    (uuid4Parse : String → Option Nat)
    (get : Nat → Except PyError (Option BaseUserDB)) :
    cfg.call decode_jwt uuid4Parse get none = .ok none ∧
    (∀ cred, decode_jwt cred cfg.secret cfg.token_audience = .error () →
      cfg.call decode_jwt uuid4Parse get (some cred) = .ok none) ∧
    (∀ cred data, decode_jwt cred cfg.secret cfg.token_audience = .ok data →
      data.user_id = none →
      cfg.call decode_jwt uuid4Parse get (some cred) = .ok none) ∧
    (∀ cred data uid, decode_jwt cred cfg.secret cfg.token_audience = .ok data →
      data.user_id = some uid → uuid4Parse uid = none →
      cfg.call decode_jwt uuid4Parse get (some cred) = .ok none) ∧
    (∀ cred data uid n r,
      decode_jwt cred cfg.secret cfg.token_audience = .ok data →
      data.user_id = some uid → uuid4Parse uid = some n → get n = .ok r →
      cfg.call decode_jwt uuid4Parse get (some cred) = .ok r) := by
  refine ⟨rfl, ?_, ?_, ?_, ?_⟩
  · intro cred hdec
    simp [CookieAuthentication.call, hdec]
  · intro cred data hdec huid
    simp [CookieAuthentication.call, hdec, huid]
  · intro cred data uid hdec huid hparse
    simp [CookieAuthentication.call, hdec, huid, hparse]
  · intro cred data uid n r hdec huid hparse hget
    simp [CookieAuthentication.call, hdec, huid, hparse, hget]

/-- C7 witness: an absent credential, an undecodable credential, a token
for a missing user and a token for an existing user, over one concrete
codec/parser/directory. -/
theorem C7_witness :
    CookieAuthentication.call { secret := "s" }
      (fun c _ _ => if c = "good" then .ok { user_id := some "42" }
        else if c = "gone" then .ok { user_id := some "7" } else .error ())
      (fun s => if s = "42" then some 42 else if s = "7" then some 7 else none)
      (fun n => if n = 42 then .ok (some ⟨42, true, true, false⟩) else .ok none)
      none = .ok none ∧
    CookieAuthentication.call { secret := "s" }
      (fun c _ _ => if c = "good" then .ok { user_id := some "42" }
        else if c = "gone" then .ok { user_id := some "7" } else .error ())
      (fun s => if s = "42" then some 42 else if s = "7" then some 7 else none)
      (fun n => if n = 42 then .ok (some ⟨42, true, true, false⟩) else .ok none)
      (some "garbage") = .ok none ∧
    CookieAuthentication.call { secret := "s" }
      (fun c _ _ => if c = "good" then .ok { user_id := some "42" }
        else if c = "gone" then .ok { user_id := some "7" } else .error ())
      (fun s => if s = "42" then some 42 else if s = "7" then some 7 else none)
      (fun n => if n = 42 then .ok (some ⟨42, true, true, false⟩) else .ok none)
      (some "gone") = .ok none ∧
    CookieAuthentication.call { secret := "s" }
      (fun c _ _ => if c = "good" then .ok { user_id := some "42" }
        else if c = "gone" then .ok { user_id := some "7" } else .error ())
      (fun s => if s = "42" then some 42 else if s = "7" then some 7 else none)
      (fun n => if n = 42 then .ok (some ⟨42, true, true, false⟩) else .ok none)
      (some "good") = .ok (some ⟨42, true, true, false⟩) := by
  have h := C7_cookie_resolve_cases { secret := "s" }
    (fun c _ _ => if c = "good" then .ok { user_id := some "42" }
      else if c = "gone" then .ok { user_id := some "7" } else .error ())
    (fun s => if s = "42" then some 42 else if s = "7" then some 7 else none)
    (fun n => if n = 42 then .ok (some ⟨42, true, true, false⟩) else .ok none)
  refine ⟨h.1, ?_, ?_, ?_⟩
  · exact h.2.1 "garbage" rfl
  · exact h.2.2.2.2 "gone" { user_id := some "7" } "7" 7 none
      rfl rfl rfl rfl
  · exact h.2.2.2.2 "good" { user_id := some "42" } "42" 42
      (some ⟨42, true, true, false⟩) rfl rfl rfl rfl

/-- C8 counterexample — the claim fails for `ValueError`: the `await
user_db.get(...)` sits inside the `try: ... except ValueError` block of
`CookieAuthentication.__call__`, so a `ValueError` raised by the
directory's `get` is swallowed and turned into "no user" instead of
propagating. -/
theorem C8_counterexample :
    CookieAuthentication.call { secret := "s" }
      (fun _ _ _ => .ok { user_id := some "1" })
      (fun _ => some 1) (fun _ => .error .valueError) (some "tok") =
      .ok none ∧
    CookieAuthentication.call { secret := "s" }
      (fun _ _ _ => .ok { user_id := some "1" })
      (fun _ => some 1) (fun _ => .error .valueError) (some "tok") ≠
      .error .valueError :=
  ⟨rfl, fun h => Except.noConfusion h⟩

/-- C8 (amended) — every failure raised by the directory's `get` other
than `ValueError` propagates out of `CookieAuthentication.__call__` and
out of `Authenticator._authenticate` rather than being treated as "no
user"; a `ValueError` from `get` is swallowed by the backend's
`except ValueError` handler. -/
theorem C8_directory_failure_propagates (cfg : CookieAuthentication)
    (decode_jwt : String → String → List String → Except Unit JWTData)
    (uuid4Parse : String → Option Nat)
    (get : Nat → Except PyError (Option BaseUserDB))
    (cred : String) (data : JWTData) (uid : String) (n : Nat) (e : PyError)
    (hdecode : decode_jwt cred cfg.secret cfg.token_audience = .ok data)
    (huid : data.user_id = some uid)
    (hparse : uuid4Parse uid = some n)
    (hget : get n = .error e)
    (hnotval : e ≠ .valueError)
    (nm : String) (rest : List Backend) (kwargs : String → Option String)
    (optional active verified superuser : Bool)
    (hkw : kwargs (name_to_variable_name nm) = some cred)
    (hne : cred ≠ "") :
    cfg.call decode_jwt uuid4Parse get (some cred) = .error e ∧
    _authenticate kwargs
      ({ name := nm, resolve := cfg.call decode_jwt uuid4Parse get } :: rest)
      optional active verified superuser = .error e := by
  have hcall : cfg.call decode_jwt uuid4Parse get (some cred) = .error e := by
    cases e with
    | pyJWTError =>
      simp [CookieAuthentication.call, hdecode, huid, hparse, hget]
    | valueError => exact absurd rfl hnotval
    | otherError m =>
      simp [CookieAuthentication.call, hdecode, huid, hparse, hget]
  refine ⟨hcall, ?_⟩
  simp [_authenticate, runBackends, runBackendsFrom, hkw, strTruthy, hne,
    hcall]

/-- C8 witness for the amended statement: an I/O-style error from the
directory surfaces unchanged through the backend and `_authenticate`. -/
theorem C8_witness :
    CookieAuthentication.call { secret := "s" }
      (fun _ _ _ => .ok { user_id := some "1" }) (fun _ => some 1)
      (fun _ => .error (.otherError "io")) (some "tok") =
      .error (.otherError "io") ∧
    _authenticate (fun _ => some "tok")
      [{ name := "cookie",
         resolve := CookieAuthentication.call { secret := "s" }
           (fun _ _ _ => .ok { user_id := some "1" }) (fun _ => some 1)
           (fun _ => .error (.otherError "io")) }]
      false true true true = .error (.otherError "io") := by
  have h := C8_directory_failure_propagates { secret := "s" }
    (fun _ _ _ => .ok { user_id := some "1" }) (fun _ => some 1)
    (fun _ => .error (.otherError "io"))
    "tok" { user_id := some "1" } "1" 1 (.otherError "io")
    rfl rfl rfl rfl (by decide)
    "cookie" [] (fun _ => some "tok") false true true true rfl (by decide)
  exact h

/-- C9 — `get_login_response` appends exactly one `set_cookie` call to the
response: its value is the token generated by the external codec from the
claims `user_id = str(user.id)`, `aud = token_audience` with the
configured secret and lifetime; its attributes are the configured name,
path, domain, secure, http-only and same-site values; its max-age equals
the configured lifetime (none when the lifetime is absent); and the
method returns no response body. -/
theorem C9_login_sets_cookie (cfg : CookieAuthentication)
    (generate_jwt : TokenClaims → String → Option Nat → String)
    (user : BaseUserDB) (response : Response) :
    ∃ c : SetCookieCall,
      cfg.get_login_response generate_jwt user response =
        (none, { set_cookie_calls := response.set_cookie_calls ++ [c] }) ∧
      c.name = cfg.cookie_name ∧
      c.value = generate_jwt
        { user_id := toString user.id, aud := cfg.token_audience }
        cfg.secret cfg.lifetime_seconds ∧
      c.max_age = cfg.lifetime_seconds ∧
      c.path = cfg.cookie_path ∧
      c.domain = cfg.cookie_domain ∧
      c.secure = cfg.cookie_secure ∧
      c.httponly = cfg.cookie_httponly ∧
      c.samesite = cfg.cookie_samesite :=
  ⟨_, rfl, rfl, rfl, rfl, rfl, rfl, rfl, rfl, rfl⟩

end FastapiUsers
